import Mathlib

/-!
# Verification of the ASHRAE-140 Excel extraction pipeline

Shallow embedding of `src/excel_processor.py` (class `ExcelProcessor` and its
attribute descriptors `SectionType`, `SetDataSources`, `SetProcessingFunctions`).

Modelling conventions:
* Spreadsheet cells are `CellValue`: strings, Python ints, or Python floats
  (floats modelled as exact rationals; every IEEE float is a rational, and no
  float arithmetic occurs in the modelled code paths).
* Python dictionaries are the insertion-ordered association structure `PyDict`;
  `PyDict.insert` replaces the value of an existing key in place (as CPython
  does) and appends new keys at the end.
* Python `None` is `PyVal.none`; an unset instance attribute is `Option.none`
  at the state level, and reading it yields `PyError.attributeError` exactly as
  CPython raises `AttributeError`.
* The external collaborators that are not part of this repository's source
  (`pd.read_excel` region reading and the `DataCleanser` methods) are modelled
  from the spec as black boxes carried by an `Env` value.
* `re.match(r'.*X.*', s, re.IGNORECASE)` is modelled as an ASCII
  case-insensitive substring test (`containsCI`).
-/

namespace Ashrae140

/-- A spreadsheet cell value: a string, a Python int, or a Python float
(modelled as an exact rational). -/
inductive CellValue where
  | s : String → CellValue
  | i : Int → CellValue
  | f : ℚ → CellValue
deriving DecidableEq, Repr

mutual

/-- A Python value as it occurs in the pipeline's result mappings:
scalars, `None`, or an insertion-ordered dictionary. -/
inductive PyVal where
  | s : String → PyVal
  | i : Int → PyVal
  | f : ℚ → PyVal
  | none : PyVal
  | dict : PyDict → PyVal
deriving DecidableEq, Repr

/-- An insertion-ordered Python dictionary: a sequence of key/value pairs.
Dictionaries built by the modelled code always have distinct keys. -/
inductive PyDict where
  | nil : PyDict
  | cons : PyVal → PyVal → PyDict → PyDict
deriving DecidableEq, Repr

end

/-- Lift a cell value into a Python value. -/
def PyVal.ofCell : CellValue → PyVal
  | CellValue.s v => PyVal.s v
  | CellValue.i v => PyVal.i v
  | CellValue.f v => PyVal.f v

/-- Errors raised by the modelled Python code. -/
inductive PyError where
  | attributeError : String → PyError
  | ashrae140ProcessingError : String → PyError
  | valueError : String → PyError
  | typeError : String → PyError
  | indexError : String → PyError
deriving DecidableEq, Repr

/-- First-match dictionary lookup, i.e. Python `d[k]` / `d.get(k)`
(dict keys are unique, so first match is the match). -/
def PyDict.lookup : PyDict → PyVal → Option PyVal
  | PyDict.nil, _ => Option.none
  | PyDict.cons k' v rest, k => if k' = k then some v else PyDict.lookup rest k

/-- Python `d[k] = v`: replace the value of an existing key in place,
otherwise append the new key at the end (CPython insertion order). -/
def PyDict.insert : PyDict → PyVal → PyVal → PyDict
  | PyDict.nil, k, v => PyDict.cons k v PyDict.nil
  | PyDict.cons k' v' rest, k, v =>
    if k' = k then PyDict.cons k v rest else PyDict.cons k' v' (PyDict.insert rest k v)

/-- Python `target.update(source)`: insert every key/value pair of `source`
into `target`, left to right. This is the merge operation used by
`ExcelProcessor.run`. -/
def PyDict.update : PyDict → PyDict → PyDict
  | t, PyDict.nil => t
  | t, PyDict.cons k v rest => PyDict.update (PyDict.insert t k v) rest

/-- The keys of a dictionary, in order. -/
def PyDict.keyList : PyDict → List PyVal
  | PyDict.nil => []
  | PyDict.cons k _ rest => k :: PyDict.keyList rest

/-- Build a `PyDict` from a list of key/value pairs (literal notation). -/
def PyDict.ofList : List (PyVal × PyVal) → PyDict
  | [] => PyDict.nil
  | (k, v) :: rest => PyDict.cons k v (PyDict.ofList rest)

/-- Dict literal with arbitrary keys. -/
def kdict (l : List (PyVal × PyVal)) : PyVal :=
  PyVal.dict (PyDict.ofList l)

/-- Dict literal with string keys (the common case in the source). -/
def sdict (l : List (String × PyVal)) : PyVal :=
  PyVal.dict (PyDict.ofList (l.map (fun p => (PyVal.s p.1, p.2))))

/-- ASCII lower-casing of one character (model of `re.IGNORECASE` folding for
the ASCII signatures used by the classifier). -/
def asciiLower (c : Char) : Char :=
  if 'A' ≤ c ∧ c ≤ 'Z' then Char.ofNat (c.toNat + 32) else c

/-- `charsPrefix pat l` : `pat` is a prefix of `l`. -/
def charsPrefix : List Char → List Char → Bool
  | [], _ => true
  | _ :: _, [] => false
  | a :: as, b :: bs => a = b && charsPrefix as bs

/-- `charsContains hay pat` : `pat` occurs contiguously inside `hay`. -/
def charsContains : List Char → List Char → Bool
  | [], pat => pat.isEmpty
  | h :: t, pat => charsPrefix pat (h :: t) || charsContains t pat

/-- Case-insensitive (ASCII) substring test: the model of
`re.match(r'.*pat.*', s, re.IGNORECASE)` for the literal signatures
`results5-2a` / `results5-2b`. -/
def containsCI (s pat : String) : Bool :=
  charsContains (s.toList.map asciiLower) (pat.toList.map asciiLower)

/-- Python `str.strip()` on a character list: drop leading and trailing
whitespace. -/
def trimChars (l : List Char) : List Char :=
  ((l.dropWhile Char.isWhitespace).reverse.dropWhile Char.isWhitespace).reverse

/-- Python `str.strip()`. -/
def pyStrip (v : String) : String :=
  String.mk (trimChars v.toList)

/-- Accumulate decimal digits; any non-digit character fails. -/
def digitsToNat : List Char → Nat → Option Nat
  | [], acc => some acc
  | c :: rest, acc =>
    if '0' ≤ c ∧ c ≤ '9' then digitsToNat rest (acc * 10 + (c.toNat - '0'.toNat))
    else Option.none

/-- Python `int(str)`: strip whitespace, accept an optional sign followed by
one or more decimal digits, anything else is a `ValueError`
(digit-group underscores are not modelled). -/
def pyIntParse (v : String) : Option Int :=
  match trimChars v.toList with
  | [] => Option.none
  | '-' :: rest =>
    match rest with
    | [] => Option.none
    | _ => (digitsToNat rest 0).map (fun n => -(n : Int))
  | '+' :: rest =>
    match rest with
    | [] => Option.none
    | _ => (digitsToNat rest 0).map (fun n => (n : Int))
  | l => (digitsToNat l 0).map (fun n => (n : Int))

/-- `re.match(r'^pre.*', s)`: `s` starts with the literal `pre`. -/
def pyStartsWith (s pre : String) : Bool :=
  charsPrefix pre.toList s.toList

/-- Split a character list on a separator character (Python `str.split(sep)`
semantics: `n` separators yield `n + 1` fields, empty fields included). -/
def splitCharsOn (sep : Char) : List Char → List Char → List (List Char)
  | [], acc => [acc.reverse]
  | c :: rest, acc =>
    if c = sep then acc.reverse :: splitCharsOn sep rest []
    else splitCharsOn sep rest (c :: acc)

/-- Python `str.split('/')`. -/
def pySplitSlash (v : String) : List String :=
  (splitCharsOn '/' v.toList []).map (fun l => String.mk l)

/-- Replace every occurrence of `pat` (non-empty) in the hay by `rep`; the
fuel is the hay's length, which bounds the recursion. -/
def replaceChars : Nat → List Char → List Char → List Char → List Char
  | 0, hay, _, _ => hay
  | _ + 1, [], _, _ => []
  | fuel + 1, h :: t, pat, rep =>
    if charsPrefix pat (h :: t) ∧ pat ≠ [] then
      rep ++ replaceChars fuel ((h :: t).drop pat.length) pat rep
    else h :: replaceChars fuel t pat rep

/-- Python `str.replace(pat, rep)` (for the non-empty patterns the source
uses; Python's empty-pattern behavior is not modelled). -/
def pyReplace (s pat rep : String) : String :=
  if pat.toList.isEmpty then s
  else String.mk (replaceChars s.toList.length s.toList pat.toList rep.toList)

/-- An exact rational given by numerator and denominator in lowest terms
(used to write the float literals of the synthetic documents so that they
evaluate inside the kernel; e.g. `ratOf 25 2` is the float `12.5`). -/
def ratOf (n : Int) (d : Nat) (hd : d ≠ 0 := by decide)
    (hc : n.natAbs.Coprime d := by decide) : ℚ :=
  ⟨n, d, hd, hc⟩

/-- `SectionType.__set__` (`src/excel_processor.py:17-26`): classify the file
name. Returns the stored `_section_type` (`Option.none` = attribute left
unset) and the list of messages logged at error severity. On an unmatched
name the source logs and returns normally; it raises nothing and stores
nothing. -/
def sectionTypeSet (name : String) : Option String × List String :=
  if containsCI name "results5-2a" then (some "5-2A", [])
  else if containsCI name "results5-2b" then (some "5-2B", [])
  else (Option.none,
    ["Error: The file name (" ++ name ++ ") did not match formatting guidelines or " ++
     "the referenced section at the beginning of the name is not supported"])

/-- A region descriptor as stored in `data_sources`:
(tab, start row, columns, number of rows, extra `pd.read_excel` arguments —
the only one used in the source is `header=None`, modelled as a flag). -/
structure RegionDescriptor where
  tab : String
  skiprows : Nat
  cols : String
  nrows : Nat
  header_none : Bool := false
deriving DecidableEq, Repr

/-- The built-in 5-2A schema (`src/excel_processor.py:50-60`). -/
def data_sources_5_2A : List (String × RegionDescriptor) :=
  [("identifying_information", ⟨"YourData", 60, "B:C", 3, true⟩),
   ("conditioned_zone_loads_non_free_float", ⟨"YourData", 68, "B:L", 46, false⟩),
   ("solar_radiation_annual_incident", ⟨"YourData", 153, "B:C", 5, false⟩),
   ("solar_radiation_unshaded_annual_transmitted", ⟨"YourData", 161, "B:C", 4, false⟩),
   ("solar_radiation_shaded_annual_transmitted", ⟨"YourData", 168, "B:C", 2, false⟩),
   ("sky_temperature_output", ⟨"YourData", 176, "B:K", 1, false⟩),
   ("annual_hourly_zone_temperature_bin_data", ⟨"YourData", 328, "B:C", 149, false⟩),
   ("free_float_case_zone_temperatures", ⟨"YourData", 128, "B:K", 7, false⟩),
   ("monthly_conditioned_zone_loads", ⟨"YourData", 188, "B:R", 12, false⟩)]

/-- The built-in 5-2B schema (`src/excel_processor.py:62-65`). -/
def data_sources_5_2B : List (String × RegionDescriptor) :=
  [("identifying_information", ⟨"YourData", 4, "E:I", 4, true⟩),
   ("steady_state_cases", ⟨"YourData", 57, "D:H", 6, true⟩)]

/-- String-keyed lookup in a schema (Python `self.data_sources[region_name]`). -/
def lookupDS : List (String × RegionDescriptor) → String → Option RegionDescriptor
  | [], _ => Option.none
  | (k, d) :: rest, region => if k = region then some d else lookupDS rest region

/-- The built-in branch of `SetDataSources.__set__`
(`src/excel_processor.py:48-67`): reading `obj.section_type` raises
`AttributeError` when `_section_type` was never stored; a recognized tag
selects the built-in schema; an unrecognized tag logs and leaves
`_data_sources` unset (modelled as `Option.none`). -/
def setDataSourcesBuiltin (section_type : Option String) :
    Except PyError (Option (List (String × RegionDescriptor))) :=
  match section_type with
  | Option.none => Except.error (PyError.attributeError "_section_type")
  | some t =>
    if t = "5-2A" then Except.ok (some data_sources_5_2A)
    else if t = "5-2B" then Except.ok (some data_sources_5_2B)
    else Except.ok Option.none

/-- `SetDataSources.__set__` (`src/excel_processor.py:45-68`):
`if isinstance(value, dict) and value:` — a non-empty caller-supplied schema
is stored verbatim and `obj.section_type` is never read; otherwise the
built-in branch runs. -/
def setDataSources (section_type : Option String)
    (value : Option (List (String × RegionDescriptor))) :
    Except PyError (Option (List (String × RegionDescriptor))) :=
  match value with
  | some v => if v.isEmpty then setDataSourcesBuiltin section_type else Except.ok (some v)
  | Option.none => setDataSourcesBuiltin section_type

/-- Strip trailing `'0'` characters. -/
def stripTrailingZeros (s : String) : String :=
  String.mk ((s.toList.reverse.dropWhile (fun c => c = '0')).reverse)

/-- Decimal rendering of a rational whose denominator divides a power of ten —
Python's `str()` of the corresponding float (every modelled float is such a
rational; the fallback fraction form is never reached by modelled data). -/
def ratFloatStr (q : ℚ) : String :=
  match (List.range 33).find? (fun k => 10 ^ k % q.den = 0) with
  | Option.none => toString q.num ++ "/" ++ toString q.den
  | some k =>
    let scale : Nat := 10 ^ k / q.den
    let m : Nat := (q.num * (scale : Int)).natAbs
    let sign : String := if q.num < 0 then "-" else ""
    let ip : Nat := m / 10 ^ k
    let fpDigits : List Char := Nat.toDigits 10 (m % 10 ^ k)
    let fp : String :=
      stripTrailingZeros (String.mk (List.replicate (k - fpDigits.length) '0' ++ fpDigits))
    sign ++ toString ip ++ "." ++ (if fp = "" then "0" else fp)

/-- Python `str()` of a cell value. -/
def pyStrCell : CellValue → String
  | CellValue.s v => v
  | CellValue.i n => toString n
  | CellValue.f q => ratFloatStr q

/-- Python `str()` of a stored field value (`str(None) = "None"`; `str()` of a
dict is never taken on modelled code paths, a stand-in is returned). -/
def pyStr : PyVal → String
  | PyVal.s v => v
  | PyVal.i n => toString n
  | PyVal.f q => ratFloatStr q
  | PyVal.none => "None"
  | PyVal.dict _ => "dict"

/-- Python `int(x)` on a cell value: ints pass through, floats are truncated
toward zero, integer-literal strings are parsed, anything else raises
`ValueError`. -/
def pyInt : CellValue → Except PyError Int
  | CellValue.i n => Except.ok n
  | CellValue.f q => Except.ok (Int.tdiv q.num q.den)
  | CellValue.s v =>
    match pyIntParse v with
    | some n => Except.ok n
    | Option.none =>
      Except.error (PyError.valueError ("invalid literal for int() with base 10: " ++ v))

/-- Modelled from the spec: the two external collaborators of the core.
`read` is the Region Reader black box (spec §4.3: `pd.read_excel` restricted
to one region descriptor, "a pure rectangular slice" of the document), and
`cleanse` is the cleansing collaborator (spec §1/§4.4: "given a raw table,
return a validated/typed table or raise a validation error"), keyed by the
`DataCleanser` method name the source invokes. `name` is the document's base
name used by the classifier. Neither collaborator's code is under `src/`. -/
structure Env where
  name : String
  read : RegionDescriptor → List (List CellValue)
  cleanse : String → List (List CellValue) → Except PyError (List (List CellValue))

/-- The fixed message of `ExcelProcessor._get_data`'s `KeyError` handler
(`src/excel_processor.py:146-147`) — the same text for every missing region. -/
def getDataMissingMessage : String :=
  "Data extraction instructions for Identifying Information section was not found"

/-- `ExcelProcessor._get_data` (`src/excel_processor.py:136-157`): reading
`self.data_sources` raises `AttributeError` if `_data_sources` is unset; a
region name absent from the schema raises `ASHRAE140ProcessingError` with the
fixed message above; otherwise the region reader returns the raw table. -/
def get_data (env : Env) (data_sources : Option (List (String × RegionDescriptor)))
    (region_name : String) : Except PyError (List (List CellValue)) :=
  match data_sources with
  | Option.none => Except.error (PyError.attributeError "_data_sources")
  | some ds =>
    match lookupDS ds region_name with
    | Option.none => Except.error (PyError.ashrae140ProcessingError getDataMissingMessage)
    | some d => Except.ok (env.read d)

/-- `df.iloc[r, c]` on a raw table: out-of-bounds raises `IndexError`. -/
def cellAt (df : List (List CellValue)) (r c : Nat) : Except PyError CellValue :=
  match df.get? r with
  | Option.none => Except.error (PyError.indexError "single positional indexer is out-of-bounds")
  | some row =>
    match row.get? c with
    | Option.none => Except.error (PyError.indexError "single positional indexer is out-of-bounds")
    | some v => Except.ok v

/-- `df.columns = [...n names...]`: pandas raises a length-mismatch
`ValueError` when the table's width is not `n` (spec §4.4 `SchemaMismatch`). -/
def setColumns (n : Nat) (df : List (List CellValue)) :
    Except PyError (List (List CellValue)) :=
  if df.all (fun r => r.length = n) then Except.ok df
  else Except.error (PyError.valueError "Length mismatch: expected axis does not match")

/-- One labelled field of `_extract_identifying_information_2a`
(`src/excel_processor.py:167-181`): `re.match(r'^Label.*', df.iloc[r, 0])` —
on mismatch the omission is logged and the field is set to `None` (no raise);
on match the adjacent cell `df.iloc[r, 1]` is the field value. A non-string
label cell raises `TypeError` (as `re.match` does). -/
def idField (df : List (List CellValue)) (r : Nat) (lbl : String) (logmsg : String) :
    Except PyError (PyVal × List String) := do
  let c0 ← cellAt df r 0
  match c0 with
  | CellValue.s v =>
    if pyStartsWith v lbl then do
      let c1 ← cellAt df r 1
      Except.ok (PyVal.ofCell c1, [])
    else Except.ok (PyVal.none, [logmsg])
  | _ => Except.error (PyError.typeError "expected string or bytes-like object")

/-- The side-channel identification metadata (`software_name`,
`software_version`, `software_release_date`). -/
structure Meta where
  software_name : PyVal
  software_version : PyVal
  software_release_date : PyVal
deriving DecidableEq, Repr

/-- `_extract_identifying_information_2a` (`src/excel_processor.py:160-187`):
three labelled fields checked at rows 0, 1, 2; returns the fragment dict, the
metadata attributes set as a side effect, and the logged error messages
(`str()` is applied to the release date in the fragment). -/
def extract_identifying_information_2a (env : Env)
    (ds : Option (List (String × RegionDescriptor))) :
    Except PyError (PyVal × Meta × List String) := do
  let df ← get_data env ds "identifying_information"
  let f1 ← idField df 0 "Software" "Software name information not found"
  let f2 ← idField df 1 "Version" "Software version information not found"
  let f3 ← idField df 2 "Date" "Software release date information not found"
  Except.ok (sdict [("software_name", f1.1), ("software_version", f2.1),
                    ("software_release_date", PyVal.s (pyStr f3.1))],
             ⟨f1.1, f2.1, f3.1⟩, f1.2 ++ f2.2 ++ f3.2)

/-- Column names of the conditioned-zone-loads table after the case column
(`src/excel_processor.py:198-200`). -/
def czl_columns : List String :=
  ["annual_heating_MWh", "annual_cooling_MWh", "peak_heating_kW", "peak_heating_month",
   "peak_heating_day", "peak_heating_hour", "peak_cooling_kW", "peak_cooling_month",
   "peak_cooling_day", "peak_cooling_hour"]

/-- `df['case'] = df['case'].astype(str)`: stringify the first column. -/
def astypeStrFirst (df : List (List CellValue)) : List (List CellValue) :=
  df.map (fun r => match r with
    | c :: rest => CellValue.s (pyStrCell c) :: rest
    | [] => [])

/-- Zip the named metric columns with a row's remaining values into the
per-row dict (`df.iloc[idx, 1:].to_dict()`). -/
def rowToDict (names : List String) (vals : List CellValue) : PyVal :=
  sdict (names.zip (vals.map PyVal.ofCell))

/-- The row loop shared by the per-case tabular regions
(`src/excel_processor.py:206-210` and `325-329`):
`data_d.update({str(row[0]): row_obj})`. -/
def caseFold (names : List String) : PyDict → List (List CellValue) → PyDict
  | d, [] => d
  | d, r :: rest =>
    match r with
    | c :: vals =>
      caseFold names (d.insert (PyVal.s (pyStrCell c)) (rowToDict names vals)) rest
    | [] => caseFold names d rest

/-- `_extract_conditioned_zone_loads_non_free_float`
(`src/excel_processor.py:189-211`). -/
def extract_conditioned_zone_loads_non_free_float (env : Env)
    (ds : Option (List (String × RegionDescriptor))) : Except PyError PyVal := do
  let df ← get_data env ds "conditioned_zone_loads_non_free_float"
  let df ← setColumns 11 df
  let df := astypeStrFirst df
  let df ← env.cleanse "cleanse_conditioned_zone_loads_non_free_float" df
  let df ← setColumns 11 df
  Except.ok (PyVal.dict (caseFold czl_columns PyDict.nil df))

/-- The row loop of `_extract_solar_radiation_annual_incident`
(`src/excel_processor.py:224-226`):
`data_d['600']['Surface'].update({str(row['Surface']): {'kWh/m2': v}})`. -/
def incidentFold : PyDict → List (List CellValue) → PyDict
  | d, [] => d
  | d, r :: rest =>
    match r with
    | [srf, v] =>
      incidentFold (d.insert (PyVal.s (pyStrCell srf)) (sdict [("kWh/m2", PyVal.ofCell v)])) rest
    | _ => incidentFold d rest

/-- `_extract_solar_radiation_annual_incident`
(`src/excel_processor.py:213-227`): always keyed under case `"600"`. -/
def extract_solar_radiation_annual_incident (env : Env)
    (ds : Option (List (String × RegionDescriptor))) : Except PyError PyVal := do
  let df ← get_data env ds "solar_radiation_annual_incident"
  let df ← setColumns 2 df
  let df ← env.cleanse "cleanse_solar_radiation_annual" df
  let df ← setColumns 2 df
  Except.ok (sdict [("600", sdict [("Surface", PyVal.dict (incidentFold PyDict.nil df))])])

/-- `df['Case/Surface'].str.split(pat='/', expand=True)` assigned to the two
columns `['Case', 'Surface']`: a cell must split into exactly two components
on the literal `'/'`; any other width cannot be assigned to two columns and
raises (pandas `ValueError`). Non-string cells are outside the modelled
domain of `.str` and also raise here. -/
def splitCaseSurface (c : CellValue) : Except PyError (String × String) :=
  match c with
  | CellValue.s v =>
    match pySplitSlash v with
    | [a, b] => Except.ok (a, b)
    | _ => Except.error (PyError.valueError "Columns must be same length as key")
  | _ => Except.error (PyError.valueError "Columns must be same length as key")

/-- Split every row's combined column; after the `drop` of `'Case/Surface'`
the columns are `['kWh/m2', 'Case', 'Surface']` in that order
(`src/excel_processor.py:237-239` and `260-262`). -/
def splitRows (df : List (List CellValue)) : Except PyError (List (List CellValue)) :=
  df.mapM (fun r => match r with
    | [cs, v] => do
      let p ← splitCaseSurface cs
      Except.ok [v, CellValue.s p.1, CellValue.s p.2]
    | _ => Except.error (PyError.valueError "Length mismatch: expected axis does not match"))

/-- The row loop shared by the two transmitted-radiation regions
(`src/excel_processor.py:243-249` and `266-272`):
`data_d.update({row['Case']: {'Surface': {row['Surface']: {'kWh/m2': v}}}})`.
A repeated case replaces the whole earlier entry for that case (dict update
semantics). -/
def solarFold : PyDict → List (List CellValue) → PyDict
  | d, [] => d
  | d, r :: rest =>
    match r with
    | [v, c, srf] =>
      solarFold (d.insert (PyVal.ofCell c)
        (sdict [("Surface", kdict [(PyVal.ofCell srf, sdict [("kWh/m2", PyVal.ofCell v)])])])) rest
    | _ => solarFold d rest

/-- The shared body of `_extract_solar_radiation_unshaded_annual_transmitted`
and `_extract_solar_radiation_shaded_annual_transmitted`
(`src/excel_processor.py:229-273` — the two methods are textually identical
except for the region name). -/
def extract_solar_radiation_transmitted (region : String) (env : Env)
    (ds : Option (List (String × RegionDescriptor))) : Except PyError PyVal := do
  let df ← get_data env ds region
  let df ← setColumns 2 df
  let df ← splitRows df
  let df ← env.cleanse "cleanse_solar_radiation_annual" df
  let df ← setColumns 3 df
  Except.ok (PyVal.dict (solarFold PyDict.nil df))

/-- `_extract_solar_radiation_unshaded_annual_transmitted`
(`src/excel_processor.py:229-250`). -/
def extract_solar_radiation_unshaded_annual_transmitted (env : Env)
    (ds : Option (List (String × RegionDescriptor))) : Except PyError PyVal :=
  extract_solar_radiation_transmitted "solar_radiation_unshaded_annual_transmitted" env ds

/-- `_extract_solar_radiation_shaded_annual_transmitted`
(`src/excel_processor.py:252-273`). -/
def extract_solar_radiation_shaded_annual_transmitted (env : Env)
    (ds : Option (List (String × RegionDescriptor))) : Except PyError PyVal :=
  extract_solar_radiation_transmitted "solar_radiation_shaded_annual_transmitted" env ds

/-- The row loop of `_extract_sky_temperature_output`
(`src/excel_processor.py:287-297`): keyed under `"600"`, three sub-keys; the
`Minimum Day` / `Maximum Day` columns are read but not stored. -/
def skyFold : PyDict → List (List CellValue) → PyDict
  | d, [] => d
  | d, r :: rest =>
    match r with
    | [_c, avg, minC, minMo, _minD, minH, maxC, maxMo, _maxD, maxH] =>
      let d := d.insert (PyVal.s "Average") (sdict [("C", PyVal.ofCell avg)])
      let d := d.insert (PyVal.s "Minimum")
        (sdict [("C", PyVal.ofCell minC), ("Month", PyVal.ofCell minMo),
                ("Hour", PyVal.ofCell minH)])
      let d := d.insert (PyVal.s "Maximum")
        (sdict [("C", PyVal.ofCell maxC), ("Month", PyVal.ofCell maxMo),
                ("Hour", PyVal.ofCell maxH)])
      skyFold d rest
    | _ => skyFold d rest

/-- `_extract_sky_temperature_output` (`src/excel_processor.py:275-298`). -/
def extract_sky_temperature_output (env : Env)
    (ds : Option (List (String × RegionDescriptor))) : Except PyError PyVal := do
  let df ← get_data env ds "sky_temperature_output"
  let df ← setColumns 10 df
  let df ← env.cleanse "cleanse_sky_temperature_output" df
  let df ← setColumns 10 df
  Except.ok (sdict [("600", PyVal.dict (skyFold PyDict.nil df))])

/-- The row loop of `_extract_hourly_annual_zone_temperature_bin_data`
(`src/excel_processor.py:309-311`): both columns pass through Python
`int()`; there is no cleansing step in this extractor. -/
def binFold : PyDict → List (List CellValue) → Except PyError PyDict
  | d, [] => Except.ok d
  | d, r :: rest =>
    match r with
    | [b, c] =>
      match pyInt b with
      | Except.error e => Except.error e
      | Except.ok bi =>
        match pyInt c with
        | Except.error e => Except.error e
        | Except.ok ci =>
          binFold (d.insert (PyVal.i bi) (sdict [("number_of_hours", PyVal.i ci)])) rest
    | _ => binFold d rest

/-- `_extract_hourly_annual_zone_temperature_bin_data`
(`src/excel_processor.py:300-312`): always keyed under case `"900FF"`. -/
def extract_hourly_annual_zone_temperature_bin_data (env : Env)
    (ds : Option (List (String × RegionDescriptor))) : Except PyError PyVal := do
  let df ← get_data env ds "annual_hourly_zone_temperature_bin_data"
  let df ← setColumns 2 df
  let entries ← binFold PyDict.nil df
  Except.ok (sdict [("900FF", sdict [("temperature_bin_c", PyVal.dict entries)])])

/-- Column names of the free-float table after the case column
(`src/excel_processor.py:320-321`). -/
def fft_columns : List String :=
  ["average_temperature", "minimum_temperature", "minimum_month", "minimum_day",
   "minimum_hour", "maximum_temperature", "maximum_month", "maximum_day", "maximum_hour"]

/-- `_extract_free_float_case_zone_temperatures`
(`src/excel_processor.py:314-330`). -/
def extract_free_float_case_zone_temperatures (env : Env)
    (ds : Option (List (String × RegionDescriptor))) : Except PyError PyVal := do
  let df ← get_data env ds "free_float_case_zone_temperatures"
  let df ← setColumns 10 df
  let df ← env.cleanse "cleanse_free_float_case_zone_temperatures" df
  let df ← setColumns 10 df
  Except.ok (PyVal.dict (caseFold fft_columns PyDict.nil df))

/-- Metric column names of the monthly-loads table
(`src/excel_processor.py:338-339`, minus `month` and `case` which are
excluded from the per-row dict by the `col_idx` filter at line 354). -/
def monthly_columns : List String :=
  ["total_heating_kwh", "total_cooling_kwh", "peak_heating_kw", "peak_heating_day",
   "peak_heating_hour", "peak_cooling_kw", "peak_cooling_day", "peak_cooling_hour"]

/-- The row loop of `_extract_monthly_conditioned_zone_loads`
(`src/excel_processor.py:352-359`): rows are `[month, 8 metrics, case]`;
`data_d[case]` is created when missing (the falsy-`get` check) and then
`data_d[case].update({month: row_obj})`. -/
def monthlyFold : PyDict → List (List CellValue) → PyDict
  | d, [] => d
  | d, r :: rest =>
    match r with
    | [mo, a1, a2, a3, a4, a5, a6, a7, a8, cs] =>
      let key := PyVal.s (pyStrCell cs)
      let d := if (d.lookup key).isNone then d.insert key (PyVal.dict PyDict.nil) else d
      let d := match d.lookup key with
        | some (PyVal.dict inner) =>
          d.insert key (PyVal.dict (inner.insert (PyVal.ofCell mo)
            (rowToDict monthly_columns [a1, a2, a3, a4, a5, a6, a7, a8])))
        | _ => d
      monthlyFold d rest
    | _ => monthlyFold d rest

/-- `_extract_monthly_conditioned_zone_loads`
(`src/excel_processor.py:332-360`): the 17-column table is split into the
case-600 block (columns 0-8) and the case-900 block (column 0 plus columns
9-16), each gets a literal case column appended, both are cleansed
independently and concatenated (600 first). -/
def extract_monthly_conditioned_zone_loads (env : Env)
    (ds : Option (List (String × RegionDescriptor))) : Except PyError PyVal := do
  let df ← get_data env ds "monthly_conditioned_zone_loads"
  let df ← setColumns 17 df
  let df600 := df.map (fun r => r.take 9 ++ [CellValue.s "600"])
  let df900 := df.map (fun r => r.take 1 ++ r.drop 9 ++ [CellValue.s "900"])
  let df600 ← env.cleanse "cleanse_monthly_conditioned_loads" df600
  let df900 ← env.cleanse "cleanse_monthly_conditioned_loads" df900
  let df600 ← setColumns 10 df600
  let df900 ← setColumns 10 df900
  Except.ok (PyVal.dict (monthlyFold PyDict.nil (df600 ++ df900)))

/-- `_extract_identifying_information_2b` (`src/excel_processor.py:363-378`):
fixed cell positions, no label validation; the version string is
`str(df.iloc[0, 0]).replace(str(df.iloc[2, 4]), '').strip()`. -/
def extract_identifying_information_2b (env : Env)
    (ds : Option (List (String × RegionDescriptor))) :
    Except PyError (PyVal × Meta) := do
  let df ← get_data env ds "identifying_information"
  let c24 ← cellAt df 2 4
  let c00 ← cellAt df 0 0
  let c14 ← cellAt df 1 4
  let c34 ← cellAt df 3 4
  let version := pyStrip (pyReplace (pyStrCell c00) (pyStrCell c24) "")
  Except.ok (sdict [("program_name_and_version", PyVal.ofCell c00),
                    ("program_version_release_date", PyVal.s (pyStrCell c14)),
                    ("program_name_short", PyVal.ofCell c24),
                    ("results_submittal_date", PyVal.s (pyStrCell c34))],
             ⟨PyVal.ofCell c24, PyVal.s version, PyVal.s (pyStrCell c14)⟩)

/-- The row loop of `_extract_steady_state_cases`
(`src/excel_processor.py:389-394`): the case key keeps its native cleansed
type (no stringification, unlike the 5-2A case keys). -/
def steadyFold : PyDict → List (List CellValue) → PyDict
  | d, [] => d
  | d, r :: rest =>
    match r with
    | [cs, qf, qz, tz, ts] =>
      steadyFold (d.insert (PyVal.ofCell cs)
        (sdict [("qfloor", PyVal.ofCell qf), ("qzone", PyVal.ofCell qz),
                ("Tzone", PyVal.ofCell tz), ("tsim", PyVal.ofCell ts)])) rest
    | _ => steadyFold d rest

/-- `_extract_steady_state_cases` (`src/excel_processor.py:380-395`):
no cleansing step in this extractor. -/
def extract_steady_state_cases (env : Env)
    (ds : Option (List (String × RegionDescriptor))) : Except PyError PyVal := do
  let df ← get_data env ds "steady_state_cases"
  let df ← setColumns 5 df
  Except.ok (PyVal.dict (steadyFold PyDict.nil df))

/-- The type of one region extractor as it appears in the
`processing_functions` table. -/
def Extractor : Type :=
  Env → Option (List (String × RegionDescriptor)) → Except PyError PyVal

/-- The 5-2A `processing_functions` table (`src/excel_processor.py:81-90`),
region name paired with its extractor, in source order. Note the key
`hourly_annual_zone_temperature_bin_data` differs from the schema key
`annual_hourly_zone_temperature_bin_data`, as in the source. -/
def regions52A : List (String × Extractor) :=
  [("identifying_information",
     fun env ds => (extract_identifying_information_2a env ds).map Prod.fst),
   ("conditioned_zone_loads_non_free_float", extract_conditioned_zone_loads_non_free_float),
   ("solar_radiation_annual_incident", extract_solar_radiation_annual_incident),
   ("solar_radiation_unshaded_annual_transmitted",
     extract_solar_radiation_unshaded_annual_transmitted),
   ("solar_radiation_shaded_annual_transmitted",
     extract_solar_radiation_shaded_annual_transmitted),
   ("sky_temperature_output", extract_sky_temperature_output),
   ("hourly_annual_zone_temperature_bin_data",
     extract_hourly_annual_zone_temperature_bin_data),
   ("free_float_case_zone_temperatures", extract_free_float_case_zone_temperatures),
   ("monthly_conditioned_zone_loads", extract_monthly_conditioned_zone_loads)]

/-- The 5-2B `processing_functions` table (`src/excel_processor.py:92-94`). -/
def regions52B : List (String × Extractor) :=
  [("identifying_information",
     fun env ds => (extract_identifying_information_2b env ds).map Prod.fst),
   ("steady_state_cases", extract_steady_state_cases)]

/-- Build the `processing_functions` dict by invoking every extractor
eagerly, in source order (a Python dict literal evaluates its values left to
right; the first raising extractor aborts). -/
def buildPF (env : Env) (ds : Option (List (String × RegionDescriptor))) :
    List (String × Extractor) → Except PyError PyDict
  | [] => Except.ok PyDict.nil
  | (n, f) :: rest =>
    match f env ds with
    | Except.error e => Except.error e
    | Except.ok v =>
      match buildPF env ds rest with
      | Except.error e => Except.error e
      | Except.ok tail => Except.ok (PyDict.cons (PyVal.s n) v tail)

/-- `SetProcessingFunctions.__set__` (`src/excel_processor.py:79-97`): the
assigned value is the section tag; an unrecognized tag logs and leaves
`_processing_functions` unset (`Option.none`). -/
def setProcessingFunctions (env : Env) (ds : Option (List (String × RegionDescriptor)))
    (tag : String) : Except PyError (Option PyDict) :=
  if tag = "5-2A" then
    match buildPF env ds regions52A with
    | Except.error e => Except.error e
    | Except.ok pf => Except.ok (some pf)
  else if tag = "5-2B" then
    match buildPF env ds regions52B with
    | Except.error e => Except.error e
    | Except.ok pf => Except.ok (some pf)
  else Except.ok Option.none

/-- The observable state of a constructed `ExcelProcessor`. The document and
collaborators (`Env`) are the caller's and are never stored or altered; the
three `software_*` attributes are the values after `__init__` lines 125-127,
which re-assign them to `None` after the extractors already ran. -/
structure Processor where
  file_location : String
  section_type : Option String
  data_sources : Option (List (String × RegionDescriptor))
  processing_functions : Option PyDict
  test_data : PyDict
  software_name : PyVal
  software_version : PyVal
  software_release_date : PyVal
deriving DecidableEq, Repr

/-- `ExcelProcessor.__init__` (`src/excel_processor.py:113-128`), in source
order: classify the name (the descriptor assignment at line 121), resolve the
schema (line 122 — this is where an unset `_section_type` first raises when no
override is supplied), read the tag and build the processing-functions table
eagerly (line 123), then initialize `test_data = {}` and re-assign the three
`software_*` attributes to `None` (lines 124-127). -/
def mkExcelProcessor (env : Env)
    (data_sources : Option (List (String × RegionDescriptor))) :
    Except PyError Processor :=
  match setDataSources (sectionTypeSet env.name).1 data_sources with
  | Except.error e => Except.error e
  | Except.ok ds =>
    match (sectionTypeSet env.name).1 with
    | Option.none => Except.error (PyError.attributeError "_section_type")
    | some tag =>
      match setProcessingFunctions env ds tag with
      | Except.error e => Except.error e
      | Except.ok pf =>
        Except.ok { file_location := env.name, section_type := some tag, data_sources := ds,
                    processing_functions := pf, test_data := PyDict.nil,
                    software_name := PyVal.none, software_version := PyVal.none,
                    software_release_date := PyVal.none }

/-- `ExcelProcessor.run` (`src/excel_processor.py:397-404`):
`self.test_data.update(self.processing_functions)` — a single shallow dict
update keyed by region name; reading `processing_functions` raises
`AttributeError` if `_processing_functions` was never stored. -/
def run (p : Processor) : Except PyError Processor :=
  match p.processing_functions with
  | Option.none => Except.error (PyError.attributeError "_processing_functions")
  | some pf => Except.ok { p with test_data := PyDict.update p.test_data pf }

/-! ## Concrete test environments (synthetic documents) -/

/-- A synthetic 5-2A document: one small, well-shaped table per region of the
built-in 5-2A schema (regions are dispatched on the descriptor's distinct
`skiprows` values), with the identifying-information table supplied as a
parameter and an identity cleanser (a legitimate instance of the cleansing
collaborator contract: every table is accepted unchanged). -/
def mkEnvA (idTbl : List (List CellValue)) : Env where
  name := "results5-2a-test.xlsx"
  read := fun d =>
    match d.skiprows with
    | 60 => idTbl
    | 68 => [[CellValue.s "600", CellValue.i 5, CellValue.i 6, CellValue.i 1, CellValue.i 1,
              CellValue.i 2, CellValue.i 3, CellValue.i 2, CellValue.i 7, CellValue.i 8,
              CellValue.i 9]]
    | 153 => [[CellValue.s "North", CellValue.i 30], [CellValue.s "South", CellValue.i 40]]
    | 161 => [[CellValue.s "600/North", CellValue.f (ratOf 25 2)]]
    | 168 => [[CellValue.s "610/South", CellValue.i 8]]
    | 176 => [[CellValue.s "600", CellValue.i 1, CellValue.i 2, CellValue.i 3, CellValue.i 4,
               CellValue.i 5, CellValue.i 6, CellValue.i 7, CellValue.i 8, CellValue.i 9]]
    | 328 => [[CellValue.i (-5), CellValue.i 10], [CellValue.i 0, CellValue.i 20]]
    | 128 => [[CellValue.s "900FF", CellValue.i 1, CellValue.i 2, CellValue.i 3, CellValue.i 4,
               CellValue.i 5, CellValue.i 6, CellValue.i 7, CellValue.i 8, CellValue.i 9]]
    | 188 => [[CellValue.s "Jan", CellValue.i 1, CellValue.i 2, CellValue.i 3, CellValue.i 4,
               CellValue.i 5, CellValue.i 6, CellValue.i 7, CellValue.i 8, CellValue.i 9,
               CellValue.i 10, CellValue.i 11, CellValue.i 12, CellValue.i 13, CellValue.i 14,
               CellValue.i 15, CellValue.i 16]]
    | _ => []
  cleanse := fun _ rows => Except.ok rows

/-- An identifying-information table whose first label cell does not start
with `"Software"` (the other two labels are well-formed). -/
def badIdTbl : List (List CellValue) :=
  [[CellValue.s "Sftwre", CellValue.s "TestSoft"],
   [CellValue.s "Version 1.0", CellValue.s "1.0"],
   [CellValue.s "Date", CellValue.s "2020-01-01"]]

/-- An identifying-information table with all three labels well-formed. -/
def goodIdTbl : List (List CellValue) :=
  [[CellValue.s "Software: ABC", CellValue.s "TestSoft"],
   [CellValue.s "Version 1.0", CellValue.s "1.0"],
   [CellValue.s "Date", CellValue.s "2020-01-01"]]

/-- The synthetic 5-2A document with the malformed first label. -/
def envA : Env := mkEnvA badIdTbl

/-- The synthetic 5-2A document with all labels well-formed. -/
def envAGood : Env := mkEnvA goodIdTbl

/-- A document whose name matches neither variant signature. -/
def envBad : Env where
  name := "bad_name.xlsx"
  read := fun _ => []
  cleanse := fun _ rows => Except.ok rows

/-- A 5-2A document whose temperature-bin table carries the non-integer float
`20.5` as a bin value. -/
def envBin : Env where
  name := "results5-2a-bin.xlsx"
  read := fun d =>
    match d.skiprows with
    | 328 => [[CellValue.f (ratOf 41 2), CellValue.i 10]]
    | _ => []
  cleanse := fun _ rows => Except.ok rows

/-- A second document whose name matches neither variant signature. -/
def envBad2 : Env where
  name := "chapter7-data.xlsx"
  read := fun _ => []
  cleanse := fun _ rows => Except.ok rows

/-- `ExcelProcessor(file, data_sources).run()`: construct the pipeline and
invoke the coordinator. -/
def runPipeline (env : Env) (o : Option (List (String × RegionDescriptor))) :
    Except PyError Processor :=
  Except.bind (mkExcelProcessor env o) run

/-- The key of a post-split transmitted-radiation row (`row['Case']`), for
stating distinctness of cases across rows. -/
def solarRowKey : List CellValue → PyVal
  | [_, c, _] => PyVal.ofCell c
  | _ => PyVal.none

/-- The key of a temperature-bin row made of int cells, for stating
distinctness of bins across rows. -/
def binRowKey : List CellValue → PyVal
  | [CellValue.i b, _] => PyVal.i b
  | _ => PyVal.none

/-- One iteration of the `solarFold` row loop (for stating lemmas). -/
def solarStep (d : PyDict) (r : List CellValue) : PyDict :=
  match r with
  | [v, c, srf] =>
    d.insert (PyVal.ofCell c)
      (sdict [("Surface", kdict [(PyVal.ofCell srf, sdict [("kWh/m2", PyVal.ofCell v)])])])
  | _ => d

/-- One iteration of the `binFold` row loop (for stating lemmas). -/
def binStep (d : PyDict) (r : List CellValue) : Except PyError PyDict :=
  match r with
  | [b, c] =>
    match pyInt b with
    | Except.error e => Except.error e
    | Except.ok bi =>
      match pyInt c with
      | Except.error e => Except.error e
      | Except.ok ci =>
        Except.ok (d.insert (PyVal.i bi) (sdict [("number_of_hours", PyVal.i ci)]))
  | _ => Except.ok d

/-! ## Helper lemmas -/

/-- Induction principle for `PyDict` alone (its mutual recursor has multiple
motives, but these lemmas never need the `PyVal` motive). -/
@[elab_as_elim]
theorem PyDict.inductionOn {motive : PyDict → Prop} (d : PyDict)
    (nil : motive PyDict.nil)
    (cons : ∀ k v rest, motive rest → motive (PyDict.cons k v rest)) : motive d :=
  match d with
  | PyDict.nil => nil
  | PyDict.cons k v rest => cons k v rest (PyDict.inductionOn rest nil cons)

theorem lookup_insert_self (d : PyDict) (k v : PyVal) :
    (d.insert k v).lookup k = some v := by
  induction d using PyDict.inductionOn with
  | nil => simp [PyDict.insert, PyDict.lookup]
  | cons k' v' rest ih =>
    by_cases h : k' = k
    · simp [PyDict.insert, PyDict.lookup, h]
    · simp [PyDict.insert, PyDict.lookup, h, ih]

theorem lookup_insert_ne (d : PyDict) (k' k v : PyVal) (h : k' ≠ k) :
    (d.insert k' v).lookup k = d.lookup k := by
  induction d using PyDict.inductionOn with
  | nil => simp [PyDict.insert, PyDict.lookup, h]
  | cons a b rest ih =>
    by_cases ha : a = k'
    · subst ha
      simp [PyDict.insert, PyDict.lookup, h]
    · by_cases hk : a = k
      · subst hk
        simp [PyDict.insert, PyDict.lookup, ha]
      · simp [PyDict.insert, PyDict.lookup, ha, hk, ih]

theorem insert_lookup_eq (d : PyDict) (k v : PyVal) (h : d.lookup k = some v) :
    d.insert k v = d := by
  induction d using PyDict.inductionOn with
  | nil => simp [PyDict.lookup] at h
  | cons a b rest ih =>
    by_cases ha : a = k
    · subst ha
      simp [PyDict.lookup] at h
      simp [PyDict.insert, h]
    · simp [PyDict.lookup, ha] at h
      simp [PyDict.insert, ha, ih h]

theorem lookup_update_notmem (s : PyDict) (k : PyVal) :
    ∀ t : PyDict, (k ∉ s.keyList) → (PyDict.update t s).lookup k = t.lookup k := by
  induction s using PyDict.inductionOn with
  | nil => intro t _; simp [PyDict.update]
  | cons a b rest ih =>
    intro t hk
    simp [PyDict.keyList] at hk
    rw [PyDict.update, ih _ hk.2, lookup_insert_ne _ _ _ _ (fun h => hk.1 h.symm)]

theorem keyList_insert_notmem (d : PyDict) (k v : PyVal) (h : k ∉ d.keyList) :
    (d.insert k v).keyList = d.keyList ++ [k] := by
  induction d using PyDict.inductionOn with
  | nil => simp [PyDict.insert, PyDict.keyList]
  | cons a b rest ih =>
    simp [PyDict.keyList] at h
    have hne : ¬a = k := fun hh => h.1 hh.symm
    simp [PyDict.insert, PyDict.keyList, hne, ih h.2]

theorem update_keyList (s : PyDict) (hs : s.keyList.Nodup) :
    ∀ t : PyDict, (∀ k ∈ s.keyList, k ∉ t.keyList) →
    (PyDict.update t s).keyList = t.keyList ++ s.keyList := by
  induction s using PyDict.inductionOn with
  | nil => intro t _; simp [PyDict.update, PyDict.keyList]
  | cons a b rest ih =>
    intro t ht
    simp [PyDict.keyList] at hs ht
    have hside : ∀ k ∈ rest.keyList, k ∉ (t.insert a b).keyList := by
      intro k hk
      rw [keyList_insert_notmem _ _ _ ht.1]
      simp
      exact ⟨ht.2 k hk, fun he => hs.1 (he ▸ hk)⟩
    rw [PyDict.update, ih hs.2 _ hside, keyList_insert_notmem _ _ _ ht.1]
    simp [PyDict.keyList]

theorem update_idem (s : PyDict) (hs : s.keyList.Nodup) :
    ∀ t : PyDict, PyDict.update (PyDict.update t s) s = PyDict.update t s := by
  induction s using PyDict.inductionOn with
  | nil => intro t; simp [PyDict.update]
  | cons a b rest ih =>
    intro t
    simp [PyDict.keyList] at hs
    rw [PyDict.update, PyDict.update,
        insert_lookup_eq _ _ _ (by
          rw [lookup_update_notmem rest a _ hs.1]
          exact lookup_insert_self t a b),
        ih hs.2]

theorem buildPF_keys (env : Env) (ds : Option (List (String × RegionDescriptor))) :
    ∀ (regions : List (String × Extractor)) (pf : PyDict),
    buildPF env ds regions = Except.ok pf →
    pf.keyList = regions.map (fun r => PyVal.s r.1) := by
  intro regions
  induction regions with
  | nil =>
    intro pf h
    simp [buildPF] at h
    simp [← h, PyDict.keyList]
  | cons r rest ih =>
    intro pf h
    obtain ⟨n, f⟩ := r
    simp only [buildPF] at h
    cases hf : f env ds with
    | error e => rw [hf] at h; exact Except.noConfusion h
    | ok v =>
      rw [hf] at h
      cases htail : buildPF env ds rest with
      | error e => rw [htail] at h; exact Except.noConfusion h
      | ok tail =>
        rw [htail] at h
        have h2 : PyDict.cons (PyVal.s n) v tail = pf := Except.ok.inj h
        rw [← h2]
        simp [PyDict.keyList, ih tail htail]

theorem sectionTypeSet_fst_cases (name : String) (t : String)
    (h : (sectionTypeSet name).1 = some t) : t = "5-2A" ∨ t = "5-2B" := by
  unfold sectionTypeSet at h
  split at h
  · exact Or.inl (Option.some.inj h).symm
  · split at h
    · exact Or.inr (Option.some.inj h).symm
    · exact Option.noConfusion h

theorem mk_ok (env : Env) (o : Option (List (String × RegionDescriptor)))
    (p : Processor) (h : mkExcelProcessor env o = Except.ok p) :
    p.test_data = PyDict.nil ∧
    ∃ pf, p.processing_functions = some pf ∧
      (pf.keyList = regions52A.map (fun r => PyVal.s r.1) ∨
       pf.keyList = regions52B.map (fun r => PyVal.s r.1)) := by
  unfold mkExcelProcessor at h
  cases hds : setDataSources (sectionTypeSet env.name).1 o with
  | error e => rw [hds] at h; simp at h
  | ok ds =>
    rw [hds] at h
    cases hst : (sectionTypeSet env.name).1 with
    | none => rw [hst] at h; simp at h
    | some tag =>
      rw [hst] at h
      rcases sectionTypeSet_fst_cases env.name tag hst with htag | htag
      all_goals subst htag
      all_goals simp only [setProcessingFunctions, reduceIte] at h
      · cases hb : buildPF env ds regions52A with
        | error e => rw [hb] at h; exact Except.noConfusion h
        | ok pf =>
          rw [hb] at h
          have h2 := Except.ok.inj h
          rw [← h2]
          exact ⟨rfl, pf, rfl, Or.inl (buildPF_keys env ds regions52A pf hb)⟩
      · cases hb : buildPF env ds regions52B with
        | error e => rw [hb] at h; exact Except.noConfusion h
        | ok pf =>
          rw [hb] at h
          have h2 := Except.ok.inj h
          rw [← h2]
          exact ⟨rfl, pf, rfl, Or.inr (buildPF_keys env ds regions52B pf hb)⟩

theorem mk_error_of_unset (env : Env) (o : Option (List (String × RegionDescriptor)))
    (h : (sectionTypeSet env.name).1 = Option.none) :
    mkExcelProcessor env o = Except.error (PyError.attributeError "_section_type") := by
  unfold mkExcelProcessor
  rw [h]
  cases o with
  | none => simp [setDataSources, setDataSourcesBuiltin]
  | some v =>
    cases v with
    | nil => simp [setDataSources, setDataSourcesBuiltin, List.isEmpty]
    | cons a rest => simp [setDataSources, List.isEmpty]

theorem charsContains_nil_pat (hay : List Char) : charsContains hay [] = true := by
  cases hay <;> simp [charsContains, charsPrefix, List.isEmpty]

theorem charsPrefix_append_self (p r : List Char) : charsPrefix p (p ++ r) = true := by
  induction p with
  | nil => simp [charsPrefix]
  | cons a as ih => simp [charsPrefix, ih]

theorem charsContains_append_self (xs p ys : List Char) :
    charsContains (xs ++ (p ++ ys)) p = true := by
  induction xs with
  | nil =>
    cases p with
    | nil => simp [charsContains_nil_pat]
    | cons a as =>
      have heq : charsContains (([] : List Char) ++ ((a :: as) ++ ys)) (a :: as) =
          (charsPrefix (a :: as) ((a :: as) ++ ys) || charsContains (as ++ ys) (a :: as)) := rfl
      rw [heq, charsPrefix_append_self]
      simp
  | cons x xt ih =>
    have heq : charsContains ((x :: xt) ++ (p ++ ys)) p =
        (charsPrefix p ((x :: xt) ++ (p ++ ys)) || charsContains (xt ++ (p ++ ys)) p) := rfl
    rw [heq, ih]
    simp

theorem string_toList_append (s t : String) : (s ++ t).toList = s.toList ++ t.toList := rfl

theorem pyBind_ok {α β : Type} (a : α) (f : α → Except PyError β) :
    (Except.ok a >>= f : Except PyError β) = f a := rfl

theorem setColumns_ok (n : Nat) (df : List (List CellValue))
    (h : ∀ r ∈ df, r.length = n) : setColumns n df = Except.ok df := by
  have hall : df.all (fun r => r.length = n) = true := by
    simp only [List.all_eq_true, decide_eq_true_eq]
    exact h
  simp [setColumns, hall]

theorem solarFold_cons (d : PyDict) (r : List CellValue) (rest : List (List CellValue)) :
    solarFold d (r :: rest) = solarFold (solarStep d r) rest := by
  rcases r with _ | ⟨a, _ | ⟨b, _ | ⟨c, _ | ⟨e, r4⟩⟩⟩⟩ <;> rfl

theorem solarStep_lookup_ne (d : PyDict) (r : List CellValue) (k : PyVal)
    (h : solarRowKey r ≠ k) : (solarStep d r).lookup k = d.lookup k := by
  rcases r with _ | ⟨a, _ | ⟨b, _ | ⟨c, _ | ⟨e, r4⟩⟩⟩⟩ <;>
    first
      | rfl
      | exact lookup_insert_ne _ _ _ _ h

theorem solarFold_lookup_notkey (rows : List (List CellValue)) (k : PyVal)
    (h : ∀ r ∈ rows, solarRowKey r ≠ k) :
    ∀ d : PyDict, (solarFold d rows).lookup k = d.lookup k := by
  induction rows with
  | nil => intro d; rfl
  | cons r rest ih =>
    intro d
    rw [solarFold_cons]
    exact (ih (fun x hx => h x (List.mem_cons_of_mem r hx)) _).trans
      (solarStep_lookup_ne d r k (h r (List.mem_cons_self r rest)))

theorem solarFold_lookup_mem (v c srf : CellValue) :
    ∀ (rows : List (List CellValue)), ((rows.map solarRowKey).Nodup) →
    ([v, c, srf] ∈ rows) → ∀ d : PyDict,
    (solarFold d rows).lookup (PyVal.ofCell c) =
      some (sdict [("Surface",
        kdict [(PyVal.ofCell srf, sdict [("kWh/m2", PyVal.ofCell v)])])]) := by
  intro rows
  induction rows with
  | nil => intro _ hmem; cases hmem
  | cons r rest ih =>
    intro hnd hmem d
    rw [solarFold_cons]
    have hnd2 : (rest.map solarRowKey).Nodup := (List.nodup_cons.mp (by simpa using hnd)).2
    rcases List.mem_cons.mp hmem with heq | hmem2
    · subst heq
      have hnotin : solarRowKey [v, c, srf] ∉ rest.map solarRowKey :=
        (List.nodup_cons.mp (by simpa using hnd)).1
      have hrest : ∀ x ∈ rest, solarRowKey x ≠ PyVal.ofCell c := by
        intro x hx he
        exact hnotin (by
          have : solarRowKey x ∈ rest.map solarRowKey := List.mem_map_of_mem solarRowKey hx
          rw [he] at this
          exact this)
      rw [solarFold_lookup_notkey rest _ hrest]
      show ((d.insert (PyVal.ofCell c) _).lookup (PyVal.ofCell c)) = _
      exact lookup_insert_self d _ _
    · exact ih hnd2 hmem2 _

theorem binStep_int (d : PyDict) (x y : Int) :
    binStep d [CellValue.i x, CellValue.i y] =
      Except.ok (d.insert (PyVal.i x) (sdict [("number_of_hours", PyVal.i y)])) := rfl

theorem binFold_cons (d : PyDict) (r : List CellValue) (rest : List (List CellValue)) :
    binFold d (r :: rest) =
      match binStep d r with
      | Except.error e => Except.error e
      | Except.ok d2 => binFold d2 rest := by
  rcases r with _ | ⟨a, _ | ⟨b, _ | ⟨c, r3⟩⟩⟩
  · rfl
  · rfl
  · show (match pyInt a with
      | Except.error e => Except.error e
      | Except.ok bi =>
        match pyInt b with
        | Except.error e => Except.error e
        | Except.ok ci =>
          binFold (d.insert (PyVal.i bi) (sdict [("number_of_hours", PyVal.i ci)])) rest) = _
    simp only [binStep]
    cases pyInt a with
    | error e => rfl
    | ok bi => cases pyInt b with
      | error e => rfl
      | ok ci => rfl
  · rfl

theorem binFold_ok_shape :
    ∀ rows : List (List CellValue),
    (∀ r ∈ rows, ∃ x y : Int, r = [CellValue.i x, CellValue.i y]) →
    ∀ d : PyDict, ∃ es, binFold d rows = Except.ok es ∧
      ∀ k : PyVal, (∀ r ∈ rows, binRowKey r ≠ k) → es.lookup k = d.lookup k := by
  intro rows
  induction rows with
  | nil => intro _ d; exact ⟨d, rfl, fun _ _ => rfl⟩
  | cons r rest ih =>
    intro hshape d
    obtain ⟨x, y, hr⟩ := hshape r (List.mem_cons_self r rest)
    subst hr
    obtain ⟨es, hes, hlk⟩ :=
      ih (fun q hq => hshape q (List.mem_cons_of_mem _ hq))
        (d.insert (PyVal.i x) (sdict [("number_of_hours", PyVal.i y)]))
    refine ⟨es, ?_, ?_⟩
    · rw [binFold_cons, binStep_int]
      exact hes
    · intro k hk
      rw [hlk k (fun q hq => hk q (List.mem_cons_of_mem _ hq))]
      exact lookup_insert_ne _ _ _ _ (hk _ (List.mem_cons_self _ rest))

theorem binFold_lookup_mem (b c : Int) :
    ∀ rows : List (List CellValue),
    (∀ r ∈ rows, ∃ x y : Int, r = [CellValue.i x, CellValue.i y]) →
    ((rows.map binRowKey).Nodup) →
    ([CellValue.i b, CellValue.i c] ∈ rows) →
    ∀ d : PyDict, ∃ es, binFold d rows = Except.ok es ∧
      es.lookup (PyVal.i b) = some (sdict [("number_of_hours", PyVal.i c)]) := by
  intro rows
  induction rows with
  | nil => intro _ _ hmem; cases hmem
  | cons r rest ih =>
    intro hshape hnd hmem d
    obtain ⟨x, y, hr⟩ := hshape r (List.mem_cons_self r rest)
    subst hr
    have hshape2 : ∀ q ∈ rest, ∃ u w : Int, q = [CellValue.i u, CellValue.i w] :=
      fun q hq => hshape q (List.mem_cons_of_mem _ hq)
    have hnd2 : (rest.map binRowKey).Nodup := (List.nodup_cons.mp (by simpa using hnd)).2
    rcases List.mem_cons.mp hmem with heq | hmem2
    · simp only [List.cons.injEq, CellValue.i.injEq, and_true] at heq
      obtain ⟨hbx, hcy⟩ := heq
      subst hbx; subst hcy
      obtain ⟨es, hes, hlk⟩ := binFold_ok_shape rest hshape2
        (d.insert (PyVal.i b) (sdict [("number_of_hours", PyVal.i c)]))
      refine ⟨es, ?_, ?_⟩
      · rw [binFold_cons, binStep_int]
        exact hes
      · have hnotin : binRowKey [CellValue.i b, CellValue.i c] ∉ rest.map binRowKey :=
          (List.nodup_cons.mp (by simpa using hnd)).1
        have hrest : ∀ q ∈ rest, binRowKey q ≠ PyVal.i b := by
          intro q hq he
          exact hnotin (by
            have : binRowKey q ∈ rest.map binRowKey := List.mem_map_of_mem binRowKey hq
            rw [he] at this
            exact this)
        rw [hlk (PyVal.i b) hrest]
        exact lookup_insert_self d _ _
    · obtain ⟨es, hes, hlk⟩ := ih hshape2 hnd2 hmem2
        (d.insert (PyVal.i x) (sdict [("number_of_hours", PyVal.i y)]))
      refine ⟨es, ?_, hlk⟩
      rw [binFold_cons, binStep_int]
      exact hes

/-! ## Claim theorems -/

/-- Claim C6 (confirmed): a document name containing `results5-2a`
case-insensitively is tagged `5-2A` (this signature is checked first, so it
wins when both match); a name containing `results5-2b` but not `results5-2a`
is tagged `5-2B`. -/
theorem classifier_assigns_variant_tags (name : String) :
    (containsCI name "results5-2a" = true → (sectionTypeSet name).1 = some "5-2A") ∧
    (containsCI name "results5-2a" = false → containsCI name "results5-2b" = true →
      (sectionTypeSet name).1 = some "5-2B") := by
  constructor
  · intro h
    simp [sectionTypeSet, h]
  · intro h1 h2
    simp [sectionTypeSet, h1, h2]

/-- Witness for C6: mixed-case variant-A and variant-B names. -/
theorem classifier_assigns_variant_tags_witness :
    (sectionTypeSet "MyResults5-2A_final.xlsx").1 = some "5-2A" ∧
    (sectionTypeSet "home-RESULTS5-2b.xlsx").1 = some "5-2B" :=
  ⟨(classifier_assigns_variant_tags "MyResults5-2A_final.xlsx").1 (by decide),
   (classifier_assigns_variant_tags "home-RESULTS5-2b.xlsx").2 (by decide) (by decide)⟩

/-- Claim C7 (confirmed): every non-empty caller-supplied schema is used
verbatim, with the variant-keyed built-in lookup bypassed entirely (the
section tag is not even read — the first conjunct holds for any tag value,
including an unset one); an omitted (`None`) or empty override selects the
built-in schema of the classified variant. -/
theorem schema_override_used_verbatim (st : Option String)
    (v : List (String × RegionDescriptor)) (hv : v ≠ []) :
    setDataSources st (some v) = Except.ok (some v) ∧
    setDataSources (some "5-2A") Option.none = Except.ok (some data_sources_5_2A) ∧
    setDataSources (some "5-2B") Option.none = Except.ok (some data_sources_5_2B) ∧
    setDataSources (some "5-2A") (some []) = Except.ok (some data_sources_5_2A) ∧
    setDataSources (some "5-2B") (some []) = Except.ok (some data_sources_5_2B) := by
  refine ⟨?_, rfl, rfl, rfl, rfl⟩
  cases v with
  | nil => exact absurd rfl hv
  | cons a rest => rfl

/-- Witness for C7: a one-region override is used verbatim even when the
variant tag was never stored. -/
theorem schema_override_used_verbatim_witness :
    setDataSources Option.none (some [("custom_region", ⟨"Tab", 1, "A:B", 2, false⟩)]) =
      Except.ok (some [("custom_region", ⟨"Tab", 1, "A:B", 2, false⟩)]) :=
  (schema_override_used_verbatim Option.none
    [("custom_region", ⟨"Tab", 1, "A:B", 2, false⟩)] (by decide)).1

/-- Claim C4 (amended): a region name absent from the resolved schema makes
the region-read fail with `ASHRAE140ProcessingError`, but the message is the
same fixed text for every missing region (it refers to the Identifying
Information section and does not name the missing region). -/
theorem get_data_missing_region_fixed_message (env : Env)
    (ds : List (String × RegionDescriptor)) (region : String)
    (h : lookupDS ds region = Option.none) :
    get_data env (some ds) region =
      Except.error (PyError.ashrae140ProcessingError getDataMissingMessage) ∧
    getDataMissingMessage =
      "Data extraction instructions for Identifying Information section was not found" := by
  refine ⟨?_, rfl⟩
  simp [get_data, h]

/-- Witness for C4 (amended): the fixed message is raised for a region the
5-2B schema lacks. -/
theorem get_data_missing_region_fixed_message_witness :
    get_data envBad (some data_sources_5_2B) "monthly_conditioned_zone_loads" =
      Except.error (PyError.ashrae140ProcessingError getDataMissingMessage) :=
  (get_data_missing_region_fixed_message envBad data_sources_5_2B
    "monthly_conditioned_zone_loads" (by decide)).1

/-- Counterexample for C4: for the missing region `steady_state_cases` the
error message does not contain the region's name — it is the fixed text
mentioning `Identifying Information` instead. -/
theorem get_data_message_does_not_name_region :
    get_data envBad (some data_sources_5_2A) "steady_state_cases" =
      Except.error (PyError.ashrae140ProcessingError getDataMissingMessage) ∧
    charsContains getDataMissingMessage.toList "steady_state_cases".toList = false ∧
    charsContains getDataMissingMessage.toList "Identifying Information".toList = true :=
  ⟨rfl, by decide, by decide⟩

/-- Counterexample for C1: on the unmatched name `bad_name.xlsx` the
classification step returns normally — it stores no tag and only logs — and
pipeline construction then aborts with `AttributeError('_section_type')`,
an error whose payload does not mention the offending file name. -/
theorem classifier_unmatched_does_not_raise :
    sectionTypeSet "bad_name.xlsx" =
      (Option.none,
       ["Error: The file name (bad_name.xlsx) did not match formatting guidelines or " ++
        "the referenced section at the beginning of the name is not supported"]) ∧
    mkExcelProcessor envBad Option.none =
      Except.error (PyError.attributeError "_section_type") ∧
    charsContains "_section_type".toList "bad_name".toList = false :=
  ⟨by decide, rfl, by decide⟩

/-- Claim C1 (amended): on an unmatched document name the classification step
does not raise: it logs one error message that contains the offending name
and stores no variant tag; construction of the pipeline then aborts (for any
override argument) with an attribute-lookup error on the variant tag, so the
run never proceeds with a guessed or default tag. -/
theorem classifier_unmatched_logs_and_construction_aborts (name : String) (env : Env)
    (o : Option (List (String × RegionDescriptor)))
    (h1 : containsCI name "results5-2a" = false)
    (h2 : containsCI name "results5-2b" = false)
    (he : env.name = name) :
    (sectionTypeSet name).1 = Option.none ∧
    (∃ msg, (sectionTypeSet name).2 = [msg] ∧
      charsContains msg.toList name.toList = true) ∧
    mkExcelProcessor env o = Except.error (PyError.attributeError "_section_type") := by
  refine ⟨by simp [sectionTypeSet, h1, h2], ?_, ?_⟩
  · refine ⟨"Error: The file name (" ++ name ++ ") did not match formatting guidelines or " ++
      "the referenced section at the beginning of the name is not supported",
      by simp [sectionTypeSet, h1, h2], ?_⟩
    have heq : ("Error: The file name (" ++ name ++
          ") did not match formatting guidelines or " ++
          "the referenced section at the beginning of the name is not supported").toList =
        "Error: The file name (".toList ++ (name.toList ++
          (") did not match formatting guidelines or ".toList ++
           "the referenced section at the beginning of the name is not supported".toList)) := by
      simp [string_toList_append, List.append_assoc]
    rw [heq]
    exact charsContains_append_self _ _ _
  · exact mk_error_of_unset env o (by rw [he]; simp [sectionTypeSet, h1, h2])

/-- Witness for C1 (amended): instantiated at `bad_name.xlsx` with no
override schema. -/
theorem classifier_unmatched_logs_and_construction_aborts_witness :
    (sectionTypeSet "bad_name.xlsx").1 = Option.none ∧
    (∃ msg, (sectionTypeSet "bad_name.xlsx").2 = [msg] ∧
      charsContains msg.toList "bad_name.xlsx".toList = true) ∧
    mkExcelProcessor envBad Option.none =
      Except.error (PyError.attributeError "_section_type") :=
  classifier_unmatched_logs_and_construction_aborts "bad_name.xlsx" envBad Option.none
    (by decide) (by decide) rfl

/-- Claim C10 (confirmed): when the classifier stored no variant tag, the
built-in schema resolution (the no-override path) fails with an
attribute-lookup error, and pipeline construction fails with the same
`AttributeError('_section_type')` for every override argument — with an
override the failure comes from the later tag read at the
processing-functions assignment — so construction never completes and no
region is ever read (the conclusion holds for every `Env` with that name,
hence independently of any document contents). -/
theorem unmatched_name_attribute_error_construction (name : String) (env : Env)
    (o : Option (List (String × RegionDescriptor)))
    (h : (sectionTypeSet name).1 = Option.none) (he : env.name = name) :
    setDataSourcesBuiltin Option.none =
      Except.error (PyError.attributeError "_section_type") ∧
    mkExcelProcessor env o = Except.error (PyError.attributeError "_section_type") :=
  ⟨rfl, mk_error_of_unset env o (by rw [he]; exact h)⟩

/-- Witness for C10: instantiated at `chapter7-data.xlsx` with a non-empty
override schema (construction still aborts before reading any region). -/
theorem unmatched_name_attribute_error_construction_witness :
    setDataSourcesBuiltin Option.none =
      Except.error (PyError.attributeError "_section_type") ∧
    mkExcelProcessor envBad2 (some [("custom", ⟨"T", 0, "A:A", 1, false⟩)]) =
      Except.error (PyError.attributeError "_section_type") :=
  unmatched_name_attribute_error_construction "chapter7-data.xlsx" envBad2
    (some [("custom", ⟨"T", 0, "A:A", 1, false⟩)]) (by decide) rfl

/-- Counterexample for C3: a row whose bin value is the non-integer float
`20.5` does not raise — `int()` silently truncates it toward zero, and the
extractor stores it under the integer key `20`. -/
theorem bin_extractor_truncates_noninteger_float :
    extract_hourly_annual_zone_temperature_bin_data envBin (some data_sources_5_2A) =
      Except.ok (sdict [("900FF", sdict [("temperature_bin_c",
        kdict [(PyVal.i 20, sdict [("number_of_hours", PyVal.i 10)])])])]) ∧
    pyInt (CellValue.f (ratOf 41 2)) = Except.ok 20 :=
  ⟨rfl, rfl⟩

/-- Claim C3 (amended): the bin extractor converts both columns with Python
`int()` and stores rows as
`{"900FF": {"temperature_bin_c": {bin: {"number_of_hours": count}}}}`;
a non-numeric string raises a conversion `ValueError`, but a numeric
non-integer value is silently truncated toward zero rather than raising
(and there is no cleansing step in this extractor). -/
theorem bin_extractor_int_cast_behavior :
    (∀ (d : PyDict) (v : String) (c : CellValue) (rest : List (List CellValue)),
      pyIntParse v = Option.none →
      binFold d ([CellValue.s v, c] :: rest) =
        Except.error (PyError.valueError ("invalid literal for int() with base 10: " ++ v))) ∧
    (∀ (d : PyDict) (q : ℚ) (n : Int),
      binFold d [[CellValue.f q, CellValue.i n]] =
        Except.ok (d.insert (PyVal.i (Int.tdiv q.num q.den))
          (sdict [("number_of_hours", PyVal.i n)]))) ∧
    (∀ (env : Env) (ds : Option (List (String × RegionDescriptor)))
       (rows : List (List CellValue)) (b c : Int),
      get_data env ds "annual_hourly_zone_temperature_bin_data" = Except.ok rows →
      (∀ r ∈ rows, ∃ x y : Int, r = [CellValue.i x, CellValue.i y]) →
      (rows.map binRowKey).Nodup →
      [CellValue.i b, CellValue.i c] ∈ rows →
      ∃ es, extract_hourly_annual_zone_temperature_bin_data env ds =
          Except.ok (sdict [("900FF", sdict [("temperature_bin_c", PyVal.dict es)])]) ∧
        es.lookup (PyVal.i b) = some (sdict [("number_of_hours", PyVal.i c)])) := by
  refine ⟨?_, ?_, ?_⟩
  · intro d v c rest hv
    rw [binFold_cons]
    simp [binStep, pyInt, hv]
  · intro d q n
    rw [binFold_cons, show binStep d [CellValue.f q, CellValue.i n] =
      Except.ok (d.insert (PyVal.i (Int.tdiv q.num q.den))
        (sdict [("number_of_hours", PyVal.i n)])) from rfl]
    rfl
  · intro env ds rows b c hget hsh hnd hmem
    have hset : setColumns 2 rows = Except.ok rows :=
      setColumns_ok 2 rows (fun r hr => by
        obtain ⟨x, y, he⟩ := hsh r hr
        subst he
        rfl)
    obtain ⟨es, hes, hlk⟩ := binFold_lookup_mem b c rows hsh hnd hmem PyDict.nil
    refine ⟨es, ?_, hlk⟩
    unfold extract_hourly_annual_zone_temperature_bin_data
    rw [hget, pyBind_ok, hset, pyBind_ok, hes, pyBind_ok]

/-- Witness for C3 (amended): the three behaviors at concrete inputs —
`int("abc")` raises, `int(20.5)` silently truncates, and the synthetic
5-2A document's bins land under `900FF`/`temperature_bin_c`. -/
theorem bin_extractor_int_cast_behavior_witness :
    binFold PyDict.nil [[CellValue.s "abc", CellValue.i 1]] =
      Except.error (PyError.valueError ("invalid literal for int() with base 10: " ++ "abc")) ∧
    binFold PyDict.nil [[CellValue.f (ratOf 41 2), CellValue.i 10]] =
      Except.ok (PyDict.nil.insert (PyVal.i 20) (sdict [("number_of_hours", PyVal.i 10)])) ∧
    (∃ es, extract_hourly_annual_zone_temperature_bin_data envA (some data_sources_5_2A) =
        Except.ok (sdict [("900FF", sdict [("temperature_bin_c", PyVal.dict es)])]) ∧
      es.lookup (PyVal.i (-5)) = some (sdict [("number_of_hours", PyVal.i 10)])) := by
  refine ⟨?_, ?_, ?_⟩
  · exact bin_extractor_int_cast_behavior.1 PyDict.nil "abc" (CellValue.i 1) [] (by decide)
  · have h := bin_extractor_int_cast_behavior.2.1 PyDict.nil (ratOf 41 2) 10
    rw [show Int.tdiv (ratOf 41 2).num (ratOf 41 2).den = 20 by decide] at h
    exact h
  · refine bin_extractor_int_cast_behavior.2.2 envA (some data_sources_5_2A)
      [[CellValue.i (-5), CellValue.i 10], [CellValue.i 0, CellValue.i 20]] (-5) 10
      rfl ?_ (by decide) (by decide)
    intro r hr
    simp only [List.mem_cons, List.not_mem_nil, or_false] at hr
    rcases hr with h | h
    · exact ⟨-5, 10, h⟩
    · exact ⟨0, 20, h⟩

/-- Claim C8 (confirmed): in the two transmitted-radiation regions the
combined column is split on the literal `/` into case and surface; every
cleansed row `(case, surface, value)` whose case is distinct from the other
rows' cases contributes the fragment entry
`{case: {"Surface": {surface: {"kWh/m2": value}}}}`; in particular the cell
`"600/North"` with value `12.5` yields exactly
`{"600": {"Surface": {"North": {"kWh/m2": 12.5}}}}`. -/
theorem solar_transmitted_split_and_fragment :
    (∀ (rows : List (List CellValue)) (d : PyDict) (v c srf : CellValue),
      (rows.map solarRowKey).Nodup → [v, c, srf] ∈ rows →
      (solarFold d rows).lookup (PyVal.ofCell c) =
        some (sdict [("Surface",
          kdict [(PyVal.ofCell srf, sdict [("kWh/m2", PyVal.ofCell v)])])])) ∧
    splitCaseSurface (CellValue.s "600/North") = Except.ok ("600", "North") ∧
    extract_solar_radiation_unshaded_annual_transmitted envA (some data_sources_5_2A) =
      Except.ok (sdict [("600", sdict [("Surface",
        sdict [("North", sdict [("kWh/m2", PyVal.f (ratOf 25 2))])])])]) ∧
    extract_solar_radiation_shaded_annual_transmitted envA (some data_sources_5_2A) =
      Except.ok (sdict [("610", sdict [("Surface",
        sdict [("South", sdict [("kWh/m2", PyVal.i 8)])])])]) := by
  refine ⟨?_, rfl, rfl, rfl⟩
  intro rows d v c srf hnd hmem
  exact solarFold_lookup_mem v c srf rows hnd hmem d

/-- Witness for C8: the general reshape conjunct instantiated at one
concrete post-split row. -/
theorem solar_transmitted_split_and_fragment_witness :
    (solarFold PyDict.nil
      [[CellValue.f (ratOf 25 2), CellValue.s "600", CellValue.s "North"]]).lookup
        (PyVal.s "600") =
      some (sdict [("Surface",
        kdict [(PyVal.s "North", sdict [("kWh/m2", PyVal.f (ratOf 25 2))])])]) :=
  solar_transmitted_split_and_fragment.1
    [[CellValue.f (ratOf 25 2), CellValue.s "600", CellValue.s "North"]] PyDict.nil
    (CellValue.f (ratOf 25 2)) (CellValue.s "600") (CellValue.s "North")
    (by decide) (by decide)

/-- Claim C9 (confirmed): in the variant-A identifying-information extractor
a string label cell that does not start with the expected label makes that
field the `None` sentinel with an error logged and no exception; a matching
label stores the adjacent cell's value; and on a document whose first label
is malformed the whole run still completes, with all nine region fragments
present in the result mapping. -/
theorem identifying_information_lenient :
    (∀ (df : List (List CellValue)) (r : Nat) (lbl logmsg v : String),
      cellAt df r 0 = Except.ok (CellValue.s v) → pyStartsWith v lbl = false →
      idField df r lbl logmsg = Except.ok (PyVal.none, [logmsg])) ∧
    (∀ (df : List (List CellValue)) (r : Nat) (lbl logmsg v : String) (c1 : CellValue),
      cellAt df r 0 = Except.ok (CellValue.s v) → pyStartsWith v lbl = true →
      cellAt df r 1 = Except.ok c1 →
      idField df r lbl logmsg = Except.ok (PyVal.ofCell c1, [])) ∧
    extract_identifying_information_2a envA (some data_sources_5_2A) =
      Except.ok (sdict [("software_name", PyVal.none), ("software_version", PyVal.s "1.0"),
                        ("software_release_date", PyVal.s "2020-01-01")],
                 ⟨PyVal.none, PyVal.s "1.0", PyVal.s "2020-01-01"⟩,
                 ["Software name information not found"]) ∧
    (runPipeline envA Option.none).map (fun p => p.test_data.keyList) =
      Except.ok [PyVal.s "identifying_information",
                 PyVal.s "conditioned_zone_loads_non_free_float",
                 PyVal.s "solar_radiation_annual_incident",
                 PyVal.s "solar_radiation_unshaded_annual_transmitted",
                 PyVal.s "solar_radiation_shaded_annual_transmitted",
                 PyVal.s "sky_temperature_output",
                 PyVal.s "hourly_annual_zone_temperature_bin_data",
                 PyVal.s "free_float_case_zone_temperatures",
                 PyVal.s "monthly_conditioned_zone_loads"] := by
  refine ⟨?_, ?_, rfl, rfl⟩
  · intro df r lbl logmsg v h1 h2
    unfold idField
    rw [h1, pyBind_ok]
    simp [h2]
  · intro df r lbl logmsg v c1 h1 h2 h3
    unfold idField
    rw [h1, pyBind_ok]
    simp only [h2, if_true]
    rw [h3, pyBind_ok]

/-- Witness for C9: the lenient mismatch path and the strict match path at
rows 0 and 2 of the malformed identifying-information table. -/
theorem identifying_information_lenient_witness :
    idField badIdTbl 0 "Software" "Software name information not found" =
      Except.ok (PyVal.none, ["Software name information not found"]) ∧
    idField badIdTbl 2 "Date" "Software release date information not found" =
      Except.ok (PyVal.s "2020-01-01", []) := by
  constructor
  · exact identifying_information_lenient.1 badIdTbl 0 "Software"
      "Software name information not found" "Sftwre" rfl (by decide)
  · exact identifying_information_lenient.2.1 badIdTbl 2 "Date"
      "Software release date information not found" "Date" (CellValue.s "2020-01-01")
      rfl (by decide) rfl

/-- Counterexample for C2: on a document where two different regions
(`solar_radiation_annual_incident` and `sky_temperature_output`) both emit
data for case `"600"`, the completed run's result mapping has no entry at the
case id `"600"` at all — each fragment sits whole under its region's name and
the two `"600"` subtrees are never combined — and the run completes without
raising any merge-conflict failure. -/
theorem run_merge_not_deep_by_case :
    (runPipeline envA Option.none).map (fun p => p.test_data.lookup (PyVal.s "600")) =
      Except.ok Option.none ∧
    (runPipeline envA Option.none).map
        (fun p => p.test_data.lookup (PyVal.s "solar_radiation_annual_incident")) =
      Except.ok (some (sdict [("600", sdict [("Surface",
        sdict [("North", sdict [("kWh/m2", PyVal.i 30)]),
               ("South", sdict [("kWh/m2", PyVal.i 40)])])])])) ∧
    (runPipeline envA Option.none).map
        (fun p => p.test_data.lookup (PyVal.s "sky_temperature_output")) =
      Except.ok (some (sdict [("600", sdict [("Average", sdict [("C", PyVal.i 1)]),
        ("Minimum", sdict [("C", PyVal.i 2), ("Month", PyVal.i 3), ("Hour", PyVal.i 5)]),
        ("Maximum", sdict [("C", PyVal.i 6), ("Month", PyVal.i 7), ("Hour", PyVal.i 9)])])])) :=
  ⟨rfl, rfl, rfl⟩

/-- Claim C2 (amended): `run`'s merge is a single shallow dict update keyed
by region name: each fragment is stored whole under its region's name (so a
key already present would be silently overwritten by the later value, with no
merge-conflict check — which cannot happen in a constructed pipeline, whose
processing-functions keys are exactly the distinct region names of its
variant, and which therefore produce a result mapping keyed by region
names). -/
theorem run_merge_is_shallow_region_keyed :
    (∀ (p : Processor) (pf : PyDict), p.processing_functions = some pf →
      run p = Except.ok { p with test_data := PyDict.update p.test_data pf }) ∧
    (∀ (t : PyDict) (k v : PyVal),
      (PyDict.update t (PyDict.cons k v PyDict.nil)).lookup k = some v) ∧
    (∀ (env : Env) (o : Option (List (String × RegionDescriptor))) (p : Processor),
      mkExcelProcessor env o = Except.ok p →
      ∃ pf, p.processing_functions = some pf ∧
        (pf.keyList = regions52A.map (fun r => PyVal.s r.1) ∨
         pf.keyList = regions52B.map (fun r => PyVal.s r.1)) ∧
        ∃ p2, run p = Except.ok p2 ∧ p2.test_data.keyList = pf.keyList) := by
  refine ⟨?_, ?_, ?_⟩
  · intro p pf h
    simp [run, h]
  · intro t k v
    exact lookup_insert_self t k v
  · intro env o p h
    obtain ⟨htd, pf, hpf, hkeys⟩ := mk_ok env o p h
    refine ⟨pf, hpf, hkeys,
      ⟨{ p with test_data := PyDict.update p.test_data pf }, by simp [run, hpf], ?_⟩⟩
    have hnd : pf.keyList.Nodup := by
      rcases hkeys with hk | hk <;> rw [hk] <;> decide
    have hu := update_keyList pf hnd PyDict.nil (by intro k _; simp [PyDict.keyList])
    simp only [htd]
    simpa [PyDict.keyList] using hu

/-- Witness for C2 (amended): a colliding key is silently overwritten by the
merge operation, and a concretely constructed 5-2A pipeline produces a result
mapping whose keys are the nine region names. -/
theorem run_merge_is_shallow_region_keyed_witness :
    (PyDict.update (PyDict.cons (PyVal.s "a") (PyVal.i 1) PyDict.nil)
      (PyDict.cons (PyVal.s "a") (PyVal.i 2) PyDict.nil)).lookup (PyVal.s "a") =
      some (PyVal.i 2) ∧
    (∃ p, mkExcelProcessor envAGood Option.none = Except.ok p ∧
      ∃ pf, p.processing_functions = some pf ∧
        (pf.keyList = regions52A.map (fun r => PyVal.s r.1) ∨
         pf.keyList = regions52B.map (fun r => PyVal.s r.1)) ∧
        ∃ p2, run p = Except.ok p2 ∧ p2.test_data.keyList = pf.keyList) := by
  constructor
  · exact run_merge_is_shallow_region_keyed.2.1 _ _ _
  · obtain ⟨p, hp⟩ : ∃ p, mkExcelProcessor envAGood Option.none = Except.ok p := ⟨_, rfl⟩
    exact ⟨p, hp, run_merge_is_shallow_region_keyed.2.2 envAGood Option.none p hp⟩

/-- Claim C5 (confirmed): pipeline construction is a pure function of the
document environment and schema argument (two constructions yield equal
processors), `run` changes nothing but `test_data` (the document, carried by
the read-only `Env`, is never written), and running a completed pipeline a
second time leaves the result mapping unchanged. -/
theorem pipeline_deterministic_and_run_idempotent (env : Env)
    (o : Option (List (String × RegionDescriptor))) (p : Processor)
    (h : mkExcelProcessor env o = Except.ok p) :
    (∀ q, mkExcelProcessor env o = Except.ok q → q = p) ∧
    ∃ p2, run p = Except.ok p2 ∧ run p2 = Except.ok p2 ∧
      p2.file_location = p.file_location ∧ p2.section_type = p.section_type ∧
      p2.data_sources = p.data_sources ∧
      p2.processing_functions = p.processing_functions ∧
      p2.software_name = p.software_name := by
  obtain ⟨htd, pf, hpf, hkeys⟩ := mk_ok env o p h
  have hnd : pf.keyList.Nodup := by
    rcases hkeys with hk | hk <;> rw [hk] <;> decide
  constructor
  · intro q hq
    rw [h] at hq
    exact (Except.ok.inj hq).symm
  · refine ⟨{ p with test_data := PyDict.update p.test_data pf },
      by simp [run, hpf], ?_, rfl, rfl, rfl, rfl, rfl⟩
    show run { p with test_data := PyDict.update p.test_data pf } =
      Except.ok { p with test_data := PyDict.update p.test_data pf }
    simp only [run, hpf]
    rw [update_idem pf hnd p.test_data]

/-- Witness for C5: the synthetic 5-2A document — running the constructed
pipeline twice leaves the result mapping fixed. -/
theorem pipeline_deterministic_and_run_idempotent_witness :
    ∃ p p2, mkExcelProcessor envAGood Option.none = Except.ok p ∧
      run p = Except.ok p2 ∧ run p2 = Except.ok p2 := by
  obtain ⟨p, hp⟩ : ∃ p, mkExcelProcessor envAGood Option.none = Except.ok p := ⟨_, rfl⟩
  obtain ⟨-, p2, h1, h2, -⟩ :=
    pipeline_deterministic_and_run_idempotent envAGood Option.none p hp
  exact ⟨p, p2, hp, h1, h2⟩

end Ashrae140
